import Mathlib

/-!
Shallow embedding of the projection engine of `app.py` (investment-portfolio
simulator).  The numeric state of the Python script is modelled over `ℝ`
(the claims are about the exact arithmetic formulas, not floating point);
calendar dates are modelled at year/month granularity, since the month count
in the code ignores the day of the month.  Every definition below is a direct
transcription of a line of `app.py`, named after the corresponding variable.
-/

/-- A calendar date at month granularity (`app.py` only ever uses
`year` and `month` of its dates: line 47 and `relativedelta(months=i)`). -/
structure Date where
  year : ℤ
  month : ℤ
deriving DecidableEq, Repr

/-- `data_inicio + relativedelta(months=i)` (line 60): month arithmetic with
year carry.  The resulting month is always in `1..12`. -/
def Date.addMonths (d : Date) (i : ℕ) : Date :=
  ⟨(d.year * 12 + (d.month - 1) + i) / 12, (d.year * 12 + (d.month - 1) + i) % 12 + 1⟩

/-- The sidebar inputs of `app.py` (lines 29-42), gathered in one record.
All monetary and rate inputs are Python floats, modelled as reals. -/
structure ProjectionInput where
  patrimonio_inicial : ℝ
  data_inicio : Date
  data_fim : Date
  retorno_anual : ℝ
  inflacao_anual : ℝ
  imposto_anual : ℝ
  variancia_anual : ℝ
  retirada_mensal : ℝ

/-- Line 47: `meses_totais = (data_fim.year - data_inicio.year) * 12 +
(data_fim.month - data_inicio.month)`. -/
def meses_totais (inp : ProjectionInput) : ℤ :=
  (inp.data_fim.year - inp.data_inicio.year) * 12 +
    (inp.data_fim.month - inp.data_inicio.month)

/-- Line 55: `taxa_retorno_liq_mensal = ((1 + retorno_anual * (1 - imposto_anual))**(1/12)) - 1`
(real-power reading, valid when the base is nonnegative). -/
noncomputable def taxa_retorno_liq_mensal (inp : ProjectionInput) : ℝ :=
  (1 + inp.retorno_anual * (1 - inp.imposto_anual)) ^ ((1 : ℝ) / 12) - 1

/-- Line 56: `taxa_inflacao_mensal = ((1 + inflacao_anual)**(1/12)) - 1`. -/
noncomputable def taxa_inflacao_mensal (inp : ProjectionInput) : ℝ :=
  (1 + inp.inflacao_anual) ^ ((1 : ℝ) / 12) - 1

/-- Line 57: `volatilidade_mensal = variancia_anual / np.sqrt(12)` — computed
but never used afterwards in the script (dead code, kept for faithfulness). -/
noncomputable def volatilidade_mensal (inp : ProjectionInput) : ℝ :=
  inp.variancia_anual / Real.sqrt 12

/-- Python `b ** e` on floats: a nonnegative base yields the real power, a
negative base with a fractional exponent yields the principal complex power
(Python 3 returns a `complex`, it does not raise).  Captures what lines 55-56
actually compute when the base is negative. -/
noncomputable def float_pow (b e : ℝ) : ℂ :=
  if 0 ≤ b then ((b ^ e : ℝ) : ℂ) else (b : ℂ) ^ (e : ℂ)

/-- Line 55 under genuine Python semantics: the net monthly rate as the
(possibly complex) value Python produces. -/
noncomputable def taxa_retorno_liq_mensal_py (inp : ProjectionInput) : ℂ :=
  float_pow (1 + inp.retorno_anual * (1 - inp.imposto_anual)) ((1 : ℝ) / 12) - 1

/-- Line 78: `retirada_atual = retirada_mensal * ((1 + taxa_inflacao_mensal)**i)`,
the withdrawal applied at step `i` (unconditionally indexed to inflation). -/
noncomputable def retirada_atual (inp : ProjectionInput) (i : ℕ) : ℝ :=
  inp.retirada_mensal * (1 + taxa_inflacao_mensal inp) ^ i

/-- The no-withdrawal running balance: `val_atual_sr` after `i` loop
iterations (initialised line 67, updated line 73). -/
noncomputable def val_atual_sr (inp : ProjectionInput) : ℕ → ℝ
  | 0 => inp.patrimonio_inicial
  | i + 1 => val_atual_sr inp i * (1 + taxa_retorno_liq_mensal inp)

/-- The with-withdrawal running balance: `val_atual_cr` after `i` loop
iterations (initialised line 68, updated lines 80-82: grow by the net rate,
subtract the inflation-indexed withdrawal, clamp negatives to zero). -/
noncomputable def val_atual_cr (inp : ProjectionInput) : ℕ → ℝ
  | 0 => inp.patrimonio_inicial
  | i + 1 =>
      let v := val_atual_cr inp i * (1 + taxa_retorno_liq_mensal inp) - retirada_atual inp (i + 1)
      if v < 0 then 0 else v

/-- Line 87: `desvio = val_atual_cr * (variancia_anual * np.sqrt(i/12))`,
the band half-width at step `i`, based on the clamped with-withdrawal balance. -/
noncomputable def desvio (inp : ProjectionInput) (i : ℕ) : ℝ :=
  val_atual_cr inp i * (inp.variancia_anual * Real.sqrt ((i : ℝ) / 12))

/-- Entry `i` of the `banda_superior` list: initialised to
`patrimonio_inicial` (line 63), then `val_atual_cr + desvio` appended each
step (line 88). -/
noncomputable def banda_superior_at (inp : ProjectionInput) (i : ℕ) : ℝ :=
  if i = 0 then inp.patrimonio_inicial else val_atual_cr inp i + desvio inp i

/-- Entry `i` of the `banda_inferior` list: initialised to
`patrimonio_inicial` (line 64), then `max(0, val_atual_cr - desvio)` appended
each step (line 89). -/
noncomputable def banda_inferior_at (inp : ProjectionInput) (i : ℕ) : ℝ :=
  if i = 0 then inp.patrimonio_inicial else max 0 (val_atual_cr inp i - desvio inp i)

/-- Line 60: `datas = [data_inicio + relativedelta(months=i) for i in range(meses_totais + 1)]`. -/
def datas (inp : ProjectionInput) : List Date :=
  (List.range ((meses_totais inp).toNat + 1)).map (fun i => inp.data_inicio.addMonths i)

/-- Lines 61, 74: the `saldo_sem_retirada` list after the loop. -/
noncomputable def saldo_sem_retirada (inp : ProjectionInput) : List ℝ :=
  (List.range ((meses_totais inp).toNat + 1)).map (val_atual_sr inp)

/-- Lines 62, 83: the `saldo_com_retirada` list after the loop. -/
noncomputable def saldo_com_retirada (inp : ProjectionInput) : List ℝ :=
  (List.range ((meses_totais inp).toNat + 1)).map (val_atual_cr inp)

/-- Lines 63, 88: the `banda_superior` list after the loop. -/
noncomputable def banda_superior (inp : ProjectionInput) : List ℝ :=
  (List.range ((meses_totais inp).toNat + 1)).map (banda_superior_at inp)

/-- Lines 64, 89: the `banda_inferior` list after the loop. -/
noncomputable def banda_inferior (inp : ProjectionInput) : List ℝ :=
  (List.range ((meses_totais inp).toNat + 1)).map (banda_inferior_at inp)

/-- Line 154: `retirada_acumulada = sum([retirada_mensal * ((1 + taxa_inflacao_mensal)**i)
for i in range(len(datas))])` — note the range starts at `0`. -/
noncomputable def retirada_acumulada (inp : ProjectionInput) : ℝ :=
  ((List.range (datas inp).length).map
    (fun i => inp.retirada_mensal * (1 + taxa_inflacao_mensal inp) ^ i)).sum

/-- Everything `app.py` computes and displays after the validation gate:
the four series plus the three summary metrics (lines 152-157). -/
structure ProjectionOutput where
  datas : List Date
  saldo_sem_retirada : List ℝ
  saldo_com_retirada : List ℝ
  banda_superior : List ℝ
  banda_inferior : List ℝ
  patrimonio_final : ℝ
  retirada_acumulada : ℝ
  retorno_liquido_medio_mensal : ℝ

/-- The script as a whole, returning `none` whenever no chart and no summary
are displayed.  Two paths produce no output.  First, lines 49-51 stop with an
error message when `meses_totais <= 0` (`st.stop()`: nothing further runs).
Second, when either fractional-power base of lines 55-56 is negative
(`1 + retorno_anual*(1 - imposto_anual) < 0` or `1 + inflacao_anual < 0`),
Python's float power returns a value of type `complex`, the complex type
propagates through lines 78-80 into `val_atual_cr`, and the comparison
`if val_atual_cr < 0:` of line 82 raises `TypeError` in the very first loop
iteration: the script aborts mid-loop, before the chart (line 146) and the
summary (lines 148-157), so no output is produced.  Only when both bases are
nonnegative do the rates stay real floats and the full output is rendered. -/
noncomputable def runApp (inp : ProjectionInput) : Option ProjectionOutput :=
  if meses_totais inp ≤ 0 then none
  else if 1 + inp.retorno_anual * (1 - inp.imposto_anual) < 0 ∨
      1 + inp.inflacao_anual < 0 then none
  else some
    { datas := datas inp
      saldo_sem_retirada := saldo_sem_retirada inp
      saldo_com_retirada := saldo_com_retirada inp
      banda_superior := banda_superior inp
      banda_inferior := banda_inferior inp
      patrimonio_final := ((saldo_com_retirada inp).getLast?).getD 0
      retirada_acumulada := retirada_acumulada inp
      retorno_liquido_medio_mensal := taxa_retorno_liq_mensal inp * 100 }

/-! ### Helper lemmas about the series and the running state -/

lemma getD_range_map {α : Type _} (d : α) (f : ℕ → α) {n i : ℕ} (h : i < n) :
    ((List.range n).map f).getD i d = f i := by
  simp [List.getD, List.getElem?_map, List.getElem?_range, h]

lemma saldo_com_retirada_getD (inp : ProjectionInput) {i : ℕ}
    (h : i ≤ (meses_totais inp).toNat) :
    (saldo_com_retirada inp).getD i 0 = val_atual_cr inp i :=
  getD_range_map 0 _ (Nat.lt_succ_of_le h)

lemma saldo_sem_retirada_getD (inp : ProjectionInput) {i : ℕ}
    (h : i ≤ (meses_totais inp).toNat) :
    (saldo_sem_retirada inp).getD i 0 = val_atual_sr inp i :=
  getD_range_map 0 _ (Nat.lt_succ_of_le h)

lemma banda_superior_getD (inp : ProjectionInput) {i : ℕ}
    (h : i ≤ (meses_totais inp).toNat) :
    (banda_superior inp).getD i 0 = banda_superior_at inp i :=
  getD_range_map 0 _ (Nat.lt_succ_of_le h)

lemma banda_inferior_getD (inp : ProjectionInput) {i : ℕ}
    (h : i ≤ (meses_totais inp).toNat) :
    (banda_inferior inp).getD i 0 = banda_inferior_at inp i :=
  getD_range_map 0 _ (Nat.lt_succ_of_le h)

lemma datas_getD (inp : ProjectionInput) {i : ℕ}
    (h : i ≤ (meses_totais inp).toNat) :
    (datas inp).getD i (Date.mk 0 0) = inp.data_inicio.addMonths i :=
  getD_range_map (Date.mk 0 0) (fun k => inp.data_inicio.addMonths k) (Nat.lt_succ_of_le h)

/-- After the clamp of line 82, every post-initial with-withdrawal balance is
nonnegative. -/
lemma val_atual_cr_succ_nonneg (inp : ProjectionInput) (i : ℕ) :
    0 ≤ val_atual_cr inp (i + 1) := by
  simp only [val_atual_cr]
  split_ifs with h
  · exact le_refl 0
  · exact le_of_not_lt h

lemma val_atual_cr_nonneg (inp : ProjectionInput) (h0 : 0 ≤ inp.patrimonio_inicial) :
    ∀ i, 0 ≤ val_atual_cr inp i
  | 0 => h0
  | i + 1 => val_atual_cr_succ_nonneg inp i

/-- The monthly inflation growth factor `1 + taxa_inflacao_mensal` is
nonnegative for every real annual inflation input (for a nonnegative base this
is the nonnegativity of the real power; for a negative base the real reading
of the power carries a factor `cos(π/12) > 0`). -/
lemma one_add_taxa_inflacao_nonneg (inp : ProjectionInput) :
    0 ≤ 1 + taxa_inflacao_mensal inp := by
  have heq : 1 + taxa_inflacao_mensal inp = (1 + inp.inflacao_anual) ^ ((1 : ℝ) / 12) := by
    unfold taxa_inflacao_mensal; ring
  rw [heq]
  rcases le_or_lt 0 (1 + inp.inflacao_anual) with hb | hb
  · exact Real.rpow_nonneg hb _
  · rw [Real.rpow_def_of_neg hb]
    have hπ := Real.pi_pos
    refine mul_nonneg (Real.exp_pos _).le (Real.cos_nonneg_of_mem_Icc ⟨by linarith, by linarith⟩)

/-- Once the with-withdrawal balance hits zero it stays at zero for all later
months, provided the monthly withdrawal is nonnegative. -/
lemma val_atual_cr_zero_absorb (inp : ProjectionInput)
    (hw : 0 ≤ inp.retirada_mensal) {i j : ℕ} (hij : i ≤ j)
    (h : val_atual_cr inp i = 0) : val_atual_cr inp j = 0 := by
  induction j, hij using Nat.le_induction with
  | base => exact h
  | succ j hij ih =>
      have hw' : 0 ≤ retirada_atual inp (j + 1) :=
        mul_nonneg hw (pow_nonneg (one_add_taxa_inflacao_nonneg inp) _)
      simp only [val_atual_cr, ih, zero_mul, zero_sub]
      split_ifs with hlt
      · rfl
      · linarith [le_of_not_lt hlt]

/-! ### Calendar-arithmetic lemmas -/

lemma Date.addMonths_zero (d : Date) (hm1 : 1 ≤ d.month) (hm2 : d.month ≤ 12) :
    d.addMonths 0 = d := by
  obtain ⟨y, m⟩ := d
  have h1 : (1 : ℤ) ≤ m := hm1
  have h2 : m ≤ 12 := hm2
  simp only [Date.addMonths, Date.mk.injEq, Nat.cast_zero, add_zero]
  constructor <;> omega

lemma Date.addMonths_succ (d : Date) (i : ℕ) :
    d.addMonths (i + 1) = (d.addMonths i).addMonths 1 := by
  obtain ⟨y, m⟩ := d
  simp only [Date.addMonths, Date.mk.injEq]
  push_cast
  constructor <;> omega

/-! ### Concrete inputs used as witnesses and counterexamples -/

/-- The sidebar default values of `app.py` over a 12-month horizon. -/
noncomputable def entradaPadrao : ProjectionInput :=
  { patrimonio_inicial := 1000000
    data_inicio := ⟨2024, 1⟩
    data_fim := ⟨2025, 1⟩
    retorno_anual := 12 / 100
    inflacao_anual := 45 / 1000
    imposto_anual := 15 / 100
    variancia_anual := 10 / 100
    retirada_mensal := 5000 }

/-- A degenerate horizon: start and end in the same calendar month. -/
noncomputable def entradaDegenerada : ProjectionInput :=
  { entradaPadrao with data_fim := ⟨2024, 1⟩ }

/-! ### Claims -/

/-- C2: the Rate Normalizer produces exactly
`net_return_rate = (1 + annual_return * (1 - annual_tax))^(1/12) - 1` and
`inflation_rate = (1 + annual_inflation)^(1/12) - 1`, the equivalent monthly
compounding rates: twelve monthly compounding steps reproduce the annual
factor exactly (so it is not the linear division of the annual rate by 12). -/
theorem claim_C2 (inp : ProjectionInput)
    (hr : 0 ≤ 1 + inp.retorno_anual * (1 - inp.imposto_anual))
    (hi : 0 ≤ 1 + inp.inflacao_anual) :
    taxa_retorno_liq_mensal inp
        = (1 + inp.retorno_anual * (1 - inp.imposto_anual)) ^ ((1 : ℝ) / 12) - 1 ∧
      taxa_inflacao_mensal inp = (1 + inp.inflacao_anual) ^ ((1 : ℝ) / 12) - 1 ∧
      (1 + taxa_retorno_liq_mensal inp) ^ (12 : ℕ)
        = 1 + inp.retorno_anual * (1 - inp.imposto_anual) ∧
      (1 + taxa_inflacao_mensal inp) ^ (12 : ℕ) = 1 + inp.inflacao_anual := by
  refine ⟨rfl, rfl, ?_, ?_⟩
  · have h1 : 1 + taxa_retorno_liq_mensal inp
        = (1 + inp.retorno_anual * (1 - inp.imposto_anual)) ^ ((1 : ℝ) / 12) := by
      unfold taxa_retorno_liq_mensal; ring
    rw [h1, ← Real.rpow_natCast (_ ^ ((1 : ℝ) / 12)) 12, ← Real.rpow_mul hr]
    norm_num
  · have h2 : 1 + taxa_inflacao_mensal inp
        = (1 + inp.inflacao_anual) ^ ((1 : ℝ) / 12) := by
      unfold taxa_inflacao_mensal; ring
    rw [h2, ← Real.rpow_natCast (_ ^ ((1 : ℝ) / 12)) 12, ← Real.rpow_mul hi]
    norm_num

/-- Witness for C2 at the sidebar defaults. -/
theorem claim_C2_witness :
    (0 ≤ 1 + entradaPadrao.retorno_anual * (1 - entradaPadrao.imposto_anual)) ∧
      (0 ≤ 1 + entradaPadrao.inflacao_anual) ∧
      (1 + taxa_retorno_liq_mensal entradaPadrao) ^ (12 : ℕ)
        = 1 + entradaPadrao.retorno_anual * (1 - entradaPadrao.imposto_anual) := by
  have h1 : 0 ≤ 1 + entradaPadrao.retorno_anual * (1 - entradaPadrao.imposto_anual) := by
    norm_num [entradaPadrao]
  have h2 : 0 ≤ 1 + entradaPadrao.inflacao_anual := by norm_num [entradaPadrao]
  exact ⟨h1, h2, (claim_C2 entradaPadrao h1 h2).2.2.1⟩

/-- C4: the total elapsed months is
`(end.year - start.year) * 12 + (end.month - start.month)` (day-of-month is
not part of the model), and whenever this is ≤ 0 the whole run stops with the
invalid-horizon error: no series, no summary, no recurrence step. -/
theorem claim_C4 (inp : ProjectionInput) (h : meses_totais inp ≤ 0) :
    meses_totais inp
        = (inp.data_fim.year - inp.data_inicio.year) * 12 +
            (inp.data_fim.month - inp.data_inicio.month) ∧
      runApp inp = none :=
  ⟨rfl, by simp [runApp, h]⟩

/-- Witness for C4: equal start and end months stop the run. -/
theorem claim_C4_witness :
    meses_totais entradaDegenerada ≤ 0 ∧ runApp entradaDegenerada = none := by
  have h : meses_totais entradaDegenerada ≤ 0 := by
    norm_num [meses_totais, entradaDegenerada, entradaPadrao]
  exact ⟨h, (claim_C4 entradaDegenerada h).2⟩

/-- C10: the recurrence subtracts the inflation-indexed amount
`retirada_mensal * (1 + taxa_inflacao_mensal)^i` unconditionally, for every
input and every step — the input record (taken from the sidebar of `app.py`)
has no flag that could select a constant nominal withdrawal instead. -/
theorem claim_C10 (inp : ProjectionInput) (i : ℕ) :
    val_atual_cr inp (i + 1)
      = if val_atual_cr inp i * (1 + taxa_retorno_liq_mensal inp)
            - inp.retirada_mensal * (1 + taxa_inflacao_mensal inp) ^ (i + 1) < 0
        then 0
        else val_atual_cr inp i * (1 + taxa_retorno_liq_mensal inp)
            - inp.retirada_mensal * (1 + taxa_inflacao_mensal inp) ^ (i + 1) := rfl

/-- C1: for every valid input and step `1 ≤ i ≤ meses_totais`, the series
entry `i` of the with-withdrawal balance is the previous entry grown by the
net monthly rate, minus the inflation-indexed withdrawal
`retirada_mensal * (1 + taxa_inflacao_mensal)^i`, clamped to `0` when
negative. -/
theorem claim_C1 (inp : ProjectionInput) (hn : 1 ≤ meses_totais inp) (i : ℕ)
    (h1 : 1 ≤ i) (h2 : i ≤ (meses_totais inp).toNat) :
    (saldo_com_retirada inp).getD i 0
      = if (saldo_com_retirada inp).getD (i - 1) 0 * (1 + taxa_retorno_liq_mensal inp)
            - inp.retirada_mensal * (1 + taxa_inflacao_mensal inp) ^ i < 0
        then 0
        else (saldo_com_retirada inp).getD (i - 1) 0 * (1 + taxa_retorno_liq_mensal inp)
            - inp.retirada_mensal * (1 + taxa_inflacao_mensal inp) ^ i := by
  obtain ⟨j, rfl⟩ : ∃ j, i = j + 1 := ⟨i - 1, (Nat.succ_pred_eq_of_pos h1).symm⟩
  have hj : j ≤ (meses_totais inp).toNat := le_trans (Nat.le_succ j) h2
  rw [saldo_com_retirada_getD inp h2, Nat.add_sub_cancel, saldo_com_retirada_getD inp hj]
  rfl

/-- Witness for C1 at the sidebar defaults, first month. -/
theorem claim_C1_witness :
    1 ≤ meses_totais entradaPadrao ∧ 1 ≤ (meses_totais entradaPadrao).toNat ∧
      (saldo_com_retirada entradaPadrao).getD 1 0
        = if (saldo_com_retirada entradaPadrao).getD 0 0
              * (1 + taxa_retorno_liq_mensal entradaPadrao)
              - entradaPadrao.retirada_mensal
                * (1 + taxa_inflacao_mensal entradaPadrao) ^ 1 < 0
          then 0
          else (saldo_com_retirada entradaPadrao).getD 0 0
              * (1 + taxa_retorno_liq_mensal entradaPadrao)
              - entradaPadrao.retirada_mensal
                * (1 + taxa_inflacao_mensal entradaPadrao) ^ 1 := by
  have hn : 1 ≤ meses_totais entradaPadrao := by
    norm_num [meses_totais, entradaPadrao]
  have h2 : 1 ≤ (meses_totais entradaPadrao).toNat := by
    norm_num [meses_totais, entradaPadrao]
  exact ⟨hn, h2, claim_C1 entradaPadrao hn 1 le_rfl h2⟩

/-- C3: for every step `1 ≤ i ≤ meses_totais`, the band half-width is the
current (already withdrawal-adjusted and floored) balance times
`variancia_anual * sqrt(i/12)`, the upper band is the balance plus the
half-width, and the lower band is the balance minus the half-width floored
at `0`. -/
theorem claim_C3 (inp : ProjectionInput) (i : ℕ) (h1 : 1 ≤ i)
    (h2 : i ≤ (meses_totais inp).toNat) :
    desvio inp i
        = (saldo_com_retirada inp).getD i 0 *
            (inp.variancia_anual * Real.sqrt ((i : ℝ) / 12)) ∧
      (banda_superior inp).getD i 0
        = (saldo_com_retirada inp).getD i 0 + desvio inp i ∧
      (banda_inferior inp).getD i 0
        = max 0 ((saldo_com_retirada inp).getD i 0 - desvio inp i) := by
  have hi0 : i ≠ 0 := by omega
  rw [saldo_com_retirada_getD inp h2, banda_superior_getD inp h2,
    banda_inferior_getD inp h2]
  exact ⟨rfl, by simp [banda_superior_at, hi0], by simp [banda_inferior_at, hi0]⟩

/-- Witness for C3 at the sidebar defaults, first month. -/
theorem claim_C3_witness :
    1 ≤ (meses_totais entradaPadrao).toNat ∧
      (banda_superior entradaPadrao).getD 1 0
        = (saldo_com_retirada entradaPadrao).getD 1 0 + desvio entradaPadrao 1 := by
  have h2 : 1 ≤ (meses_totais entradaPadrao).toNat := by
    norm_num [meses_totais, entradaPadrao]
  exact ⟨h2, (claim_C3 entradaPadrao 1 le_rfl h2).2.1⟩

/-- A one-month run with a negative volatility input; all other rates zero. -/
noncomputable def entradaVolatilidadeNegativa : ProjectionInput :=
  { patrimonio_inicial := 1
    data_inicio := ⟨2024, 1⟩
    data_fim := ⟨2024, 2⟩
    retorno_anual := 0
    inflacao_anual := 0
    imposto_anual := 0
    variancia_anual := -1
    retirada_mensal := 0 }

lemma taxa_retorno_volNeg : taxa_retorno_liq_mensal entradaVolatilidadeNegativa = 0 := by
  unfold taxa_retorno_liq_mensal entradaVolatilidadeNegativa
  norm_num [Real.one_rpow]

lemma val_atual_cr_volNeg : val_atual_cr entradaVolatilidadeNegativa 1 = 1 := by
  simp [val_atual_cr, retirada_atual, taxa_retorno_volNeg]
  norm_num [entradaVolatilidadeNegativa]

lemma meses_totais_volNeg : (meses_totais entradaVolatilidadeNegativa).toNat = 1 := by
  norm_num [meses_totais, entradaVolatilidadeNegativa]

/-- C7 fails as stated: with a negative volatility input (the data model
allows every real rate) the upper band at month 1 falls strictly below the
with-withdrawal balance, so
`band_lower ≤ balance_with_withdrawal ≤ band_upper` does not hold for every
input. -/
theorem claim_C7_counterexample :
    ¬ ((banda_inferior entradaVolatilidadeNegativa).getD 1 0
          ≤ (saldo_com_retirada entradaVolatilidadeNegativa).getD 1 0 ∧
        (saldo_com_retirada entradaVolatilidadeNegativa).getD 1 0
          ≤ (banda_superior entradaVolatilidadeNegativa).getD 1 0) := by
  have h2 : 1 ≤ (meses_totais entradaVolatilidadeNegativa).toNat := by
    rw [meses_totais_volNeg]
  have hs : 0 < Real.sqrt (1 / 12) := Real.sqrt_pos.mpr (by norm_num)
  rintro ⟨-, hub⟩
  rw [saldo_com_retirada_getD _ h2, banda_superior_getD _ h2] at hub
  simp only [banda_superior_at, desvio, val_atual_cr_volNeg, one_ne_zero,
    if_false] at hub
  rw [show ((1 : ℕ) : ℝ) / 12 = 1 / 12 by norm_num] at hub
  have hv : entradaVolatilidadeNegativa.variancia_anual = -1 := rfl
  rw [hv] at hub
  nlinarith

/-- C7 amended: for every input whose volatility is nonnegative (and every
month of the produced series), the with-withdrawal balance lies between the
two bands. -/
theorem claim_C7_amended (inp : ProjectionInput) (hv : 0 ≤ inp.variancia_anual)
    (i : ℕ) (hi : i ≤ (meses_totais inp).toNat) :
    (banda_inferior inp).getD i 0 ≤ (saldo_com_retirada inp).getD i 0 ∧
      (saldo_com_retirada inp).getD i 0 ≤ (banda_superior inp).getD i 0 := by
  rw [saldo_com_retirada_getD inp hi, banda_superior_getD inp hi,
    banda_inferior_getD inp hi]
  cases i with
  | zero => simp [banda_superior_at, banda_inferior_at, val_atual_cr]
  | succ j =>
      have hval : 0 ≤ val_atual_cr inp (j + 1) := val_atual_cr_succ_nonneg inp j
      have hdes : 0 ≤ desvio inp (j + 1) := by
        unfold desvio
        exact mul_nonneg hval (mul_nonneg hv (Real.sqrt_nonneg _))
      constructor
      · simp only [banda_inferior_at, Nat.succ_ne_zero, if_false]
        exact max_le hval (by linarith)
      · simp only [banda_superior_at, Nat.succ_ne_zero, if_false]
        linarith

/-- Witness for the amended C7 at the sidebar defaults, first month. -/
theorem claim_C7_amended_witness :
    0 ≤ entradaPadrao.variancia_anual ∧
      1 ≤ (meses_totais entradaPadrao).toNat ∧
      (banda_inferior entradaPadrao).getD 1 0
          ≤ (saldo_com_retirada entradaPadrao).getD 1 0 ∧
        (saldo_com_retirada entradaPadrao).getD 1 0
          ≤ (banda_superior entradaPadrao).getD 1 0 := by
  have hv : 0 ≤ entradaPadrao.variancia_anual := by norm_num [entradaPadrao]
  have hi : 1 ≤ (meses_totais entradaPadrao).toNat := by
    norm_num [meses_totais, entradaPadrao]
  exact ⟨hv, hi, claim_C7_amended entradaPadrao hv 1 hi⟩

/-- C8: for every valid input (positive month count and a well-formed start
month), all four balance series and the date series have length
`meses_totais + 1`; entry 0 of the four balance series is
`patrimonio_inicial`; the date series starts at `data_inicio` and each entry
is the previous one advanced by exactly one calendar month. -/
theorem claim_C8 (inp : ProjectionInput) (hn : 1 ≤ meses_totais inp)
    (hm1 : 1 ≤ inp.data_inicio.month) (hm2 : inp.data_inicio.month ≤ 12) :
    (datas inp).length = (meses_totais inp).toNat + 1 ∧
      (saldo_sem_retirada inp).length = (meses_totais inp).toNat + 1 ∧
      (saldo_com_retirada inp).length = (meses_totais inp).toNat + 1 ∧
      (banda_superior inp).length = (meses_totais inp).toNat + 1 ∧
      (banda_inferior inp).length = (meses_totais inp).toNat + 1 ∧
      (saldo_sem_retirada inp).getD 0 0 = inp.patrimonio_inicial ∧
      (saldo_com_retirada inp).getD 0 0 = inp.patrimonio_inicial ∧
      (banda_superior inp).getD 0 0 = inp.patrimonio_inicial ∧
      (banda_inferior inp).getD 0 0 = inp.patrimonio_inicial ∧
      (datas inp).getD 0 (Date.mk 0 0) = inp.data_inicio ∧
      ∀ i, i < (meses_totais inp).toNat →
        (datas inp).getD (i + 1) (Date.mk 0 0)
          = ((datas inp).getD i (Date.mk 0 0)).addMonths 1 := by
  refine ⟨by simp [datas], by simp [saldo_sem_retirada], by simp [saldo_com_retirada],
    by simp [banda_superior], by simp [banda_inferior], ?_, ?_, ?_, ?_, ?_, ?_⟩
  · rw [saldo_sem_retirada_getD inp (Nat.zero_le _)]; rfl
  · rw [saldo_com_retirada_getD inp (Nat.zero_le _)]; rfl
  · rw [banda_superior_getD inp (Nat.zero_le _)]; rfl
  · rw [banda_inferior_getD inp (Nat.zero_le _)]; rfl
  · rw [datas_getD inp (Nat.zero_le _)]
    exact Date.addMonths_zero inp.data_inicio hm1 hm2
  · intro i hi
    rw [datas_getD inp hi, datas_getD inp (le_of_lt hi)]
    exact Date.addMonths_succ inp.data_inicio i

/-- Witness for C8 at the sidebar defaults. -/
theorem claim_C8_witness :
    1 ≤ meses_totais entradaPadrao ∧
      1 ≤ entradaPadrao.data_inicio.month ∧ entradaPadrao.data_inicio.month ≤ 12 ∧
      (datas entradaPadrao).length = (meses_totais entradaPadrao).toNat + 1 ∧
      (datas entradaPadrao).getD 0 (Date.mk 0 0) = entradaPadrao.data_inicio := by
  have hn : 1 ≤ meses_totais entradaPadrao := by norm_num [meses_totais, entradaPadrao]
  have hm1 : 1 ≤ entradaPadrao.data_inicio.month := by norm_num [entradaPadrao]
  have hm2 : entradaPadrao.data_inicio.month ≤ 12 := by norm_num [entradaPadrao]
  have h := claim_C8 entradaPadrao hn hm1 hm2
  exact ⟨hn, hm1, hm2, h.1, h.2.2.2.2.2.2.2.2.2.1⟩

/-- C9: with a nonnegative initial wealth and a nonnegative monthly
withdrawal, the with-withdrawal series is nonnegative at every month, and
zero is absorbing: a zero balance at month `i` forces a zero balance at every
later month `j` of the horizon. -/
theorem claim_C9 (inp : ProjectionInput) (h0 : 0 ≤ inp.patrimonio_inicial)
    (hw : 0 ≤ inp.retirada_mensal) :
    (∀ i, i ≤ (meses_totais inp).toNat → 0 ≤ (saldo_com_retirada inp).getD i 0) ∧
      ∀ i j, i ≤ j → j ≤ (meses_totais inp).toNat →
        (saldo_com_retirada inp).getD i 0 = 0 →
        (saldo_com_retirada inp).getD j 0 = 0 := by
  constructor
  · intro i hi
    rw [saldo_com_retirada_getD inp hi]
    exact val_atual_cr_nonneg inp h0 i
  · intro i j hij hj h
    rw [saldo_com_retirada_getD inp (le_trans hij hj)] at h
    rw [saldo_com_retirada_getD inp hj]
    exact val_atual_cr_zero_absorb inp hw hij h

/-- Witness for C9 at the sidebar defaults. -/
theorem claim_C9_witness :
    0 ≤ entradaPadrao.patrimonio_inicial ∧ 0 ≤ entradaPadrao.retirada_mensal ∧
      0 ≤ (saldo_com_retirada entradaPadrao).getD 0 0 := by
  have h0 : 0 ≤ entradaPadrao.patrimonio_inicial := by norm_num [entradaPadrao]
  have hw : 0 ≤ entradaPadrao.retirada_mensal := by norm_num [entradaPadrao]
  exact ⟨h0, hw, (claim_C9 entradaPadrao h0 hw).1 0 (Nat.zero_le _)⟩

/-- One-month horizon with zero inflation: the summary's off-by-one is then
the bare `retirada_mensal` added once too often. -/
noncomputable def entradaResumoC5 : ProjectionInput :=
  { patrimonio_inicial := 1000000
    data_inicio := ⟨2024, 1⟩
    data_fim := ⟨2024, 2⟩
    retorno_anual := 12 / 100
    inflacao_anual := 0
    imposto_anual := 15 / 100
    variancia_anual := 10 / 100
    retirada_mensal := 5000 }

lemma taxa_inflacao_resumoC5 : taxa_inflacao_mensal entradaResumoC5 = 0 := by
  unfold taxa_inflacao_mensal entradaResumoC5
  norm_num [Real.one_rpow]

lemma meses_totais_resumoC5 : (meses_totais entradaResumoC5).toNat = 1 := by
  norm_num [meses_totais, entradaResumoC5]

/-- C5 fails on the code: line 154 sums the withdrawal schedule over
`range(len(datas))`, i.e. over `i = 0..meses_totais`, one term more than the
`i = 1..meses_totais` schedule of the projection loop.  On a one-month
horizon with zero inflation and a 5000 withdrawal the code reports 10000
while the claimed sum is 5000. -/
theorem claim_C5_code_eval :
    retirada_acumulada entradaResumoC5 = 10000 ∧
      (Finset.Icc 1 (meses_totais entradaResumoC5).toNat).sum
          (fun i => entradaResumoC5.retirada_mensal *
            (1 + taxa_inflacao_mensal entradaResumoC5) ^ i) = 5000 ∧
      retirada_acumulada entradaResumoC5
        ≠ (Finset.Icc 1 (meses_totais entradaResumoC5).toNat).sum
            (fun i => entradaResumoC5.retirada_mensal *
              (1 + taxa_inflacao_mensal entradaResumoC5) ^ i) := by
  have hlen : (datas entradaResumoC5).length = 2 := by
    simp [datas, meses_totais_resumoC5]
  have h1 : retirada_acumulada entradaResumoC5 = 10000 := by
    rw [retirada_acumulada, hlen, taxa_inflacao_resumoC5]
    norm_num [List.range_succ, entradaResumoC5]
  have h2 : (Finset.Icc 1 (meses_totais entradaResumoC5).toNat).sum
      (fun i => entradaResumoC5.retirada_mensal *
        (1 + taxa_inflacao_mensal entradaResumoC5) ^ i) = 5000 := by
    rw [meses_totais_resumoC5, taxa_inflacao_resumoC5, Finset.Icc_self,
      Finset.sum_singleton]
    norm_num [entradaResumoC5]
  refine ⟨h1, h2, ?_⟩
  rw [h1, h2]
  norm_num

/-- A pathological return makes the base of the fractional power negative:
`1 + (-2) * (1 - 0) = -1`. -/
noncomputable def entradaBaseNegativa : ProjectionInput :=
  { patrimonio_inicial := 1000000
    data_inicio := ⟨2024, 1⟩
    data_fim := ⟨2025, 1⟩
    retorno_anual := -2
    inflacao_anual := 45 / 1000
    imposto_anual := 0
    variancia_anual := 10 / 100
    retirada_mensal := 5000 }

/-- C6 fails on the code: the Rate Normalizer has no domain check at all.
With a base of `-1`, line 55's float power silently yields the principal
complex value — imaginary part `sin(π/12) ≠ 0` — rather than a domain
error, and the failure that does occur is not in the normalizer: the horizon
gate is passed, the projection loop is entered, and line 82's comparison
raises `TypeError` during the first projection step, aborting the script
with no output. -/
theorem claim_C6_code_eval :
    1 + entradaBaseNegativa.retorno_anual * (1 - entradaBaseNegativa.imposto_anual) < 0 ∧
      (taxa_retorno_liq_mensal_py entradaBaseNegativa).im ≠ 0 ∧
      ¬ meses_totais entradaBaseNegativa ≤ 0 ∧
      runApp entradaBaseNegativa = none := by
  have hbase : 1 + entradaBaseNegativa.retorno_anual *
      (1 - entradaBaseNegativa.imposto_anual) = -1 := by
    norm_num [entradaBaseNegativa]
  have him : (taxa_retorno_liq_mensal_py entradaBaseNegativa).im
      = Real.sin (Real.pi / 12) := by
    rw [taxa_retorno_liq_mensal_py, hbase]
    rw [float_pow, if_neg (by norm_num : ¬ (0 : ℝ) ≤ -1)]
    have hc : ((-1 : ℝ) : ℂ) = -1 := by push_cast; ring
    rw [hc, Complex.cpow_def_of_ne_zero (by norm_num), Complex.log_neg_one]
    have hexp : (Real.pi : ℂ) * Complex.I * (((1 : ℝ) / 12 : ℝ) : ℂ)
        = ((Real.pi / 12 : ℝ) : ℂ) * Complex.I := by
      push_cast; ring
    rw [hexp, Complex.sub_im, Complex.exp_ofReal_mul_I_im, Complex.one_im,
      sub_zero]
  have hsin : 0 < Real.sin (Real.pi / 12) :=
    Real.sin_pos_of_pos_of_lt_pi (by positivity) (by linarith [Real.pi_pos])
  have hm : ¬ meses_totais entradaBaseNegativa ≤ 0 := by
    norm_num [meses_totais, entradaBaseNegativa]
  have hneg : 1 + entradaBaseNegativa.retorno_anual *
      (1 - entradaBaseNegativa.imposto_anual) < 0 := by rw [hbase]; norm_num
  refine ⟨hneg, by rw [him]; exact ne_of_gt hsin, hm, ?_⟩
  unfold runApp
  rw [if_neg hm, if_pos (Or.inl hneg)]
